import Mathlib

/-
Verification of lib/api/readable.js (the BodyReadable wrapper).

The module wraps a Node Readable so that its byte stream can be consumed
at most once, in one of several modes: the legacy no-mode gate (read,
resume, pipe, data or readable listeners), a web pull stream (body), or
one of four promise accumulators (text, json, blob, arrayBuffer).

Shallow embedding conventions:
- A chunk is a list of byte values; the end sentinel is the JS null and
  is represented as the value none of Option Chunk.
- The base Node Readable is external library code.  The specification
  treats its backlog, its ended and endEmitted flags, its destroyed flag
  and its readableDidRead property as primitives; they are modelled as
  plain state fields, and Readable.prototype.push, read and destroy are
  modelled minimally from that primitive interface.
- Text decoding and structured-data parsing are external primitives per
  the specification; they are passed in as an explicit record of
  functions, so everything stays executable once a concrete record is
  supplied.
- The tri-state JS field this[kBody] (undefined, null after the no-mode
  gate, or a lock object) is the inductive KBody below.  JS truthiness
  of this[kBody] holds exactly for the two lock constructors.
- Promise settlement is first-settle-wins, modelled by PromiseState.
-/

namespace Undici

/-- One byte chunk delivered by the producer. -/
abbrev Chunk := List Nat

/-- Result values of the external structured-data parser (JSON.parse is a
primitive library call per the specification, so only an opaque result
type is needed). -/
inductive JVal
  | null
  | num (n : Int)
  | str (s : String)
  deriving DecidableEq, Repr

/-- JavaScript error values this module creates or observes.  AbortError
is the class defined on lines 18 to 24 of the source. -/
inductive JsError
  | typeError (msg : String)
  | abortError
  | parseError (msg : String)
  | genericError (msg : String)
  deriving DecidableEq, Repr

/-- Values a consumption promise can resolve with.  nullV is the JS null
value (resolve(this.body) after the body reference was cleared). -/
inductive PromiseValue
  | strV (s : String)
  | jsonV (v : JVal)
  | bufV (bytes : List Nat)
  | blobV (chunks : List Chunk)
  | nullV
  deriving DecidableEq, Repr

/-- State of the consumption promise; settlement is first-settle-wins. -/
inductive PromiseState
  | pending
  | resolved (v : PromiseValue)
  | rejected (e : JsError)
  deriving DecidableEq, Repr

def PromiseState.resolveWith : PromiseState → PromiseValue → PromiseState
  | .pending, v => .resolved v
  | st, _ => st

def PromiseState.rejectWith : PromiseState → JsError → PromiseState
  | .pending, e => .rejected e
  | st, _ => st

/-- The web-stream controller handed to the underlying source.  The
stream is created with highWaterMark 16 * 1024 and the default queuing
strategy, which counts one unit per chunk. -/
structure Controller where
  queue : List Chunk
  closed : Bool
  errored : Bool
  deriving DecidableEq, Repr

def webHighWaterMark : Int := 16 * 1024

/-- desiredSize of the controller: the high-water mark minus the queued
count, 0 once closed.  (A JS errored controller reports null; null > 0
and 0 > 0 agree as false, so 0 keeps the one comparison the module makes
faithful.) -/
def Controller.desiredSize (c : Controller) : Int :=
  if c.closed || c.errored then 0 else webHighWaterMark - c.queue.length

/-- controller.enqueue: new Uint8Array(val) copies the chunk bytes into
the queue; in the byte-list model the copy is the same list. -/
def Controller.enq (c : Controller) (ch : Chunk) : Controller :=
  { c with queue := c.queue ++ [ch] }

/-- controller.close. -/
def Controller.close (c : Controller) : Controller :=
  { c with closed := true }

/-- The accumulator of a promise-mode lock, tagged by the mode: text and
json grow a string, blob and arrayBuffer grow a chunk list; none is the
JS null stored into this.body after the end sentinel was processed. -/
inductive AccKind
  | text (body : Option String)
  | json (body : Option String)
  | blob (body : Option (List Chunk))
  | arrayBuffer (body : Option (List Chunk))
  deriving DecidableEq, Repr

/-- The web pull-stream lock (lines 165 to 202).  The controller field is
assigned at construction from the start callback argument and is never
cleared afterwards, so the reattachment fallback branch of its push
(!this.controller, lines 180 to 183) is unreachable and not modelled. -/
structure WebLock where
  used : Bool
  controller : Controller
  deriving DecidableEq, Repr

/-- A promise-mode lock (lines 234 to 278). -/
structure AccLock where
  used : Bool
  kind : AccKind
  deriving DecidableEq, Repr

/-- The JS field this[kBody]: undefined before any consumption, null
after the no-mode legacy gate (line 142), or a lock object. -/
inductive KBody
  | undef
  | nullGate
  | web (l : WebLock)
  | acc (l : AccLock)
  deriving DecidableEq, Repr

/-- JS truthiness of this[kBody]: undefined and null are falsy, lock
objects are truthy. -/
def KBody.truthy : KBody → Bool
  | .web _ => true
  | .acc _ => true
  | _ => false

/-- The used flag of the installed lock (false when no lock object). -/
def KBody.lockUsed : KBody → Bool
  | .web l => l.used
  | .acc l => l.used
  | _ => false

def KBody.isWeb : KBody → Bool
  | .web _ => true
  | _ => false

/-- The six explicit mode tags accepted by consume; the no-mode gate is
consume with no tag (Option ConsumeType below). -/
inductive ConsumeType
  | webStream
  | text
  | json
  | blob
  | arrayBuffer
  deriving DecidableEq, Repr

/-- The mode of an installed lock object. -/
def AccKind.ty : AccKind → ConsumeType
  | .text _ => .text
  | .json _ => .json
  | .blob _ => .blob
  | .arrayBuffer _ => .arrayBuffer

def KBody.lockType : KBody → Option ConsumeType
  | .web _ => some .webStream
  | .acc l => some l.kind.ty
  | _ => none

/-- State of the base Node Readable, the external primitive the module
builds on: the backlog of received but unread chunks, the ended and
endEmitted flags, the readableDidRead property (undefined on legacy Node
versions, hence an Option), the destroyed flag and the recorded error. -/
structure BaseState where
  buffer : List Chunk
  ended : Bool
  endEmitted : Bool
  readableDidRead : Option Bool
  destroyed : Bool
  errored : Option JsError
  deriving DecidableEq, Repr

/-- Whole state of one BodyReadable object.  promise is the consumption
promise when a promise-mode consume has run (its error and end handlers
are registered exactly when this field is some).  pendingBaseEndTask
records the queueMicrotask deferred push of the end sentinel onto the
base stream (line 193). -/
structure BodyReadable where
  base : BaseState
  kBody : KBody
  kDestroyed : Bool
  promise : Option PromiseState
  pendingBaseEndTask : Bool
  deriving DecidableEq, Repr

/-- The external text-decoding and structured-data-parsing primitives,
supplied explicitly so all definitions stay executable. -/
structure Prims where
  decode : Chunk → String
  parseJson : String → Except String JVal

/-- get bodyUsed (lines 87 to 95): the used flag of a truthy lock, else
readableDidRead when that property exists, else whether this[kBody] is
exactly null. -/
def bodyUsed (s : BodyReadable) : Bool :=
  match s.kBody with
  | .web l => l.used
  | .acc l => l.used
  | k =>
    match s.base.readableDidRead with
    | some b => b
    | none =>
      match k with
      | .nullGate => true
      | _ => false

/-- External primitive Readable.prototype.push, modelled from the spec
interface of the base stream: once destroyed a push has no effect and
reports false, the end sentinel sets the ended flag, a real chunk joins
the backlog and the return value reports spare backlog capacity. -/
def basePush (s : BodyReadable) (val : Option Chunk) : BodyReadable × Bool :=
  if s.base.destroyed then (s, false)
  else
    match val with
    | none => ({ s with base := { s.base with ended := true } }, false)
    | some c =>
      ({ s with base := { s.base with buffer := s.base.buffer ++ [c] } },
       decide (s.base.buffer.length + 1 < 16384))

/-- External primitive Readable.prototype.destroy, modelled minimally:
no further effect once destroyed; otherwise records the error and marks
the stream destroyed.  A supplied error reaches the error listeners, and
the promise modes registered reject as their error listener (line 229),
so a pending consumption promise is rejected with it. -/
def baseDestroy (s : BodyReadable) (err : Option JsError) : BodyReadable :=
  if s.base.destroyed then s
  else
    { s with
      base := { s.base with destroyed := true, errored := err }
      promise :=
        match err, s.promise with
        | some e, some pr => some (pr.rejectWith e)
        | _, pr => pr }

/-- External primitive Readable.prototype.read, modelled minimally: pop
the head of the backlog if any, and record on readableDidRead (when the
property exists) that data was delivered. -/
def baseRead (s : BodyReadable) : BodyReadable × Option Chunk :=
  match s.base.buffer with
  | [] => (s, none)
  | c :: rest =>
    ({ s with
        base := { s.base with
                    buffer := rest,
                    readableDidRead :=
                      s.base.readableDidRead.map (fun _ => true) } },
     some c)

/-- destroy (lines 33 to 45): no-op once this[kDestroyed] is set; if a
lock object exists (a truthy this[kBody]; the null left by the no-mode
gate is falsy), no error was supplied and the end event has not been
emitted, an AbortError is synthesized; then the flag is set and the base
teardown runs with whichever error applies. -/
def destroy (s : BodyReadable) (err : Option JsError) : BodyReadable :=
  if s.kDestroyed then s
  else
    baseDestroy { s with kDestroyed := true }
      (if s.kBody.truthy && err.isNone && !s.base.endEmitted
       then some .abortError else err)

/-- push of the web pull-stream lock (lines 170 to 201): no-op returning
false once the base stream is destroyed; otherwise flips used, closes
the controller on the end sentinel (deferring the base end signal to a
microtask, recorded in pendingBaseEndTask) or enqueues a copy of a real
chunk, and returns whether the controller still reports desired capacity
greater than zero. -/
def webPush (s : BodyReadable) (l : WebLock) (val : Option Chunk) :
    BodyReadable × Bool :=
  if s.base.destroyed then (s, false)
  else
    match val with
    | none =>
      ({ s with kBody := .web ⟨true, l.controller.close⟩,
                pendingBaseEndTask := true },
       decide (l.controller.close.desiredSize > 0))
    | some ch =>
      ({ s with kBody := .web ⟨true, l.controller.enq ch⟩ },
       decide ((l.controller.enq ch).desiredSize > 0))

def setAcc (s : BodyReadable) (l : AccLock) : BodyReadable :=
  { s with kBody := .acc l }

def resolveProm (s : BodyReadable) (v : PromiseValue) : BodyReadable :=
  match s.promise with
  | some pr => { s with promise := some (pr.resolveWith v) }
  | none => s

/-- The tail of the promise-mode push after a successful try block on the
end sentinel (lines 271 to 276): store the cleared lock (this.body =
null), signal end on the base stream, return true. -/
def finishEnd (s : BodyReadable) (l : AccLock) : BodyReadable × Bool :=
  ((basePush (setAcc s l) none).1, true)

/-- JS string coercion of this.body in the text and json branches: the
accumulated string, or the text null when the reference was cleared. -/
def jsBodyString : Option String → String
  | some t => t
  | none => "null"

/-- resolve(this.body) in text mode: the accumulated string, or the JS
null value when the reference was cleared. -/
def textResolveValue : Option String → PromiseValue
  | some t => .strV t
  | none => .nullV

/-- The try block of the promise-mode push (lines 245 to 269), keyed by
the accumulator and the pushed value; every result lock carries
used = true because this.used is set before the try block runs.  Text
and json append the decoded chunk to the string (JS null + string
coerces a cleared reference to the text null); on the end sentinel text
resolves the accumulated string, json parses it and either resolves the
parsed value or, when the parser throws, lands in the catch block, which
destroys the stream with that error and returns false (lines 266 to
269).  Blob and arrayBuffer append real chunks to the list (a TypeError
lands in the catch block if the reference was already cleared) and on
the end sentinel resolve the wrapped list, or the concatenated bytes.
Every successful end-sentinel path then clears the body reference,
signals end on the base stream and returns true (lines 271 to 276). -/
def accTry (p : Prims) (s : BodyReadable) :
    AccKind → Option Chunk → BodyReadable × Bool
  | .text b, some c =>
    (setAcc s ⟨true, .text (some (jsBodyString b ++ p.decode c))⟩, true)
  | .json b, some c =>
    (setAcc s ⟨true, .json (some (jsBodyString b ++ p.decode c))⟩, true)
  | .text b, none =>
    finishEnd (resolveProm s (textResolveValue b)) ⟨true, .text none⟩
  | .json b, none =>
    match p.parseJson (jsBodyString b) with
    | .ok v => finishEnd (resolveProm s (.jsonV v)) ⟨true, .json none⟩
    | .error m =>
      (destroy (setAcc s ⟨true, .json b⟩) (some (.parseError m)), false)
  | .blob (some cs), some c =>
    (setAcc s ⟨true, .blob (some (cs ++ [c]))⟩, true)
  | .blob none, some _ =>
    (destroy (setAcc s ⟨true, .blob none⟩)
      (some (.typeError "Cannot read properties of null")), false)
  | .blob (some cs), none =>
    finishEnd (resolveProm s (.blobV cs)) ⟨true, .blob none⟩
  | .blob none, none =>
    (destroy (setAcc s ⟨true, .blob none⟩)
      (some (.typeError "Cannot read properties of null")), false)
  | .arrayBuffer (some cs), some c =>
    (setAcc s ⟨true, .arrayBuffer (some (cs ++ [c]))⟩, true)
  | .arrayBuffer none, some _ =>
    (destroy (setAcc s ⟨true, .arrayBuffer none⟩)
      (some (.typeError "Cannot read properties of null")), false)
  | .arrayBuffer (some cs), none =>
    finishEnd (resolveProm s (.bufV cs.flatten)) ⟨true, .arrayBuffer none⟩
  | .arrayBuffer none, none =>
    (destroy (setAcc s ⟨true, .arrayBuffer none⟩)
      (some (.typeError "Cannot read properties of null")), false)

/-- push of a promise-mode lock (lines 238 to 277): no-op returning false
once the base stream is destroyed (lines 239 to 241); otherwise flips
used (line 243) and runs the try block. -/
def accPush (p : Prims) (s : BodyReadable) (l : AccLock)
    (val : Option Chunk) : BodyReadable × Bool :=
  if s.base.destroyed then (s, false)
  else accTry p s l.kind val

/-- push (lines 47 to 53): routed to the lock once a truthy lock exists,
else to the base stream primitive (the null left by the no-mode gate is
falsy, so it also routes to the base stream). -/
def push (p : Prims) (s : BodyReadable) (val : Option Chunk) :
    BodyReadable × Bool :=
  match s.kBody with
  | .web l => webPush s l val
  | .acc l => accPush p s l val
  | _ => basePush s val

/-- self[kBody].push as invoked by the drain in start: the lock is
always installed when start runs; the other cases are inert here. -/
def lockPush (p : Prims) (s : BodyReadable) (val : Option Chunk) :
    BodyReadable × Bool :=
  match s.kBody with
  | .web l => webPush s l val
  | .acc l => accPush p s l val
  | _ => (s, false)

/-- The while loop of start (lines 122 to 124): shift the head of the
backlog and feed it to the lock, until the backlog is empty.  Fuel is
the initial backlog length; no push of a real chunk touches the backlog
(proved below), so the fuel matches the JS loop exactly.  The second
component is the trace of values delivered to the lock push. -/
def drainGo (p : Prims) : Nat → BodyReadable → List (Option Chunk) →
    BodyReadable × List (Option Chunk)
  | 0, s, tr => (s, tr)
  | fuel + 1, s, tr =>
    match s.base.buffer with
    | [] => (s, tr)
    | c :: rest =>
      drainGo p fuel
        ((lockPush p { s with base := { s.base with buffer := rest } }
          (some c)).1)
        (tr ++ [some c])

/-- start (lines 118 to 130): synchronously drain the backlog into the
lock in order, then deliver the end sentinel if the stream already
ended, then ask the base stream for more data (self._read(), an external
primitive modelled as the identity).  The data-listener assertion on
line 119 is a precondition on the external event machinery and is not
modelled.  Returns the final state and the trace of values delivered to
the lock push. -/
def start (p : Prims) (s : BodyReadable) : BodyReadable × List (Option Chunk) :=
  if (drainGo p s.base.buffer.length s []).1.base.ended then
    ((lockPush p (drainGo p s.base.buffer.length s []).1 none).1,
     (drainGo p s.base.buffer.length s []).2 ++ [none])
  else drainGo p s.base.buffer.length s []

/-- What a consumption entry point hands back. -/
inductive ConsumeResult
  | selfGate
  | thrown (e : JsError)
  | webStreamHandle
  | promiseHandle
  deriving DecidableEq, Repr

def freshController : Controller := ⟨[], false, false⟩

/-- consume (lines 132 to 144) with the two mode bodies inlined.

No tag: mark this[kBody] with null and hand the stream itself back.

Web-stream tag: the ReadableStream constructor runs the underlying
start callback synchronously; this[kBody] is still falsy there, so the
callback registers the error and end forwarders, installs the lock with
the fresh controller, and drains via start.

Promise tags: the executor runs synchronously inside the Promise
constructor.  It registers the error and end forwarders (lines 228 to
233) and then evaluates the lock object literal; the body initialiser on
line 237 reads this.type, but the executor is an arrow function inside
the plain strict-mode call consume, so this is undefined and the read
throws a TypeError.  The Promise constructor turns the throw into a
rejection, the assignment to self[kBody] never happens and start never
runs: the returned promise is already rejected and no lock is
installed. -/
def consume (p : Prims) (s : BodyReadable) (ty : Option ConsumeType) :
    BodyReadable × ConsumeResult :=
  if bodyUsed s then (s, .thrown (.typeError "disturbed"))
  else if s.kBody.truthy then (s, .thrown (.typeError "locked"))
  else
    match ty with
    | none => ({ s with kBody := .nullGate }, .selfGate)
    | some .webStream =>
      ((start p { s with kBody := .web ⟨false, freshController⟩ }).1,
       .webStreamHandle)
    | some _ =>
      ({ s with
          promise := some (.rejected
            (.typeError "Cannot read properties of undefined")) },
       .promiseHandle)

/-- The promise-mode installation as sections 4.1 and 4.3 of the spec
describe it, for comparison with consume: identical except that the
executor builds the accumulator from the captured mode tag (an empty
string for text and json, an empty list for blob and arrayBuffer)
instead of reading this.type on line 237, so the lock is installed with
a pending promise and the backlog is drained. -/
def consumeIntended (p : Prims) (s : BodyReadable) (ty : ConsumeType) :
    BodyReadable × ConsumeResult :=
  if bodyUsed s then (s, .thrown (.typeError "disturbed"))
  else if s.kBody.truthy then (s, .thrown (.typeError "locked"))
  else
    match ty with
    | .webStream =>
      ((start p { s with kBody := .web ⟨false, freshController⟩ }).1,
       .webStreamHandle)
    | .text =>
      ((start p { s with
                  promise := some PromiseState.pending,
                  kBody := .acc ⟨false, .text (some "")⟩ }).1, .promiseHandle)
    | .json =>
      ((start p { s with
                  promise := some PromiseState.pending,
                  kBody := .acc ⟨false, .json (some "")⟩ }).1, .promiseHandle)
    | .blob =>
      ((start p { s with
                  promise := some PromiseState.pending,
                  kBody := .acc ⟨false, .blob (some [])⟩ }).1, .promiseHandle)
    | .arrayBuffer =>
      ((start p { s with
                  promise := some PromiseState.pending,
                  kBody := .acc ⟨false, .arrayBuffer (some [])⟩ }).1, .promiseHandle)

/-- Observable outcome of one method call in the step relation. -/
inductive Outcome
  | unit
  | pushed (b : Bool)
  | chunkRead (c : Option Chunk)
  | consumed (r : ConsumeResult)
  | threw (e : JsError)
  deriving DecidableEq, Repr

/-- The legacy gate shared by resume and pipe (lines 62 to 74): trigger
the no-mode consume when this[kBody] is undefined (a consume throw
propagates), then delegate to the base primitive (stateless here). -/
def legacyGateOp (p : Prims) (s : BodyReadable) : BodyReadable × Outcome :=
  match s.kBody with
  | .undef =>
    match consume p s none with
    | (s1, .thrown e) => (s1, .threw e)
    | (s1, _) => (s1, .unit)
  | _ => (s, .unit)

/-- read (lines 55 to 60): trigger the no-mode consume when this[kBody]
is undefined, then delegate to the base read primitive. -/
def readOp (p : Prims) (s : BodyReadable) : BodyReadable × Outcome :=
  match s.kBody with
  | .undef =>
    match consume p s none with
    | (s1, .thrown e) => (s1, .threw e)
    | (s1, _) => ((baseRead s1).1, .chunkRead (baseRead s1).2)
  | _ => ((baseRead s).1, .chunkRead (baseRead s).2)

inductive EventName
  | data
  | readable
  | errorEv
  | endEv
  | other
  deriving DecidableEq, Repr

/-- on and addListener (lines 76 to 85): trigger the no-mode consume when
this[kBody] is undefined and the event is data or readable, then
delegate to the base registration primitive. -/
def onOp (p : Prims) (s : BodyReadable) (ev : EventName) :
    BodyReadable × Outcome :=
  match s.kBody, ev with
  | .undef, .data => legacyGateOp p s
  | .undef, .readable => legacyGateOp p s
  | _, _ => (s, .unit)

/-- The base machinery emitting the end event: endEmitted is set, and the
registered end forwarders (the promise executor on lines 230 to 233, the
web-stream start callback on lines 161 to 164) call the base teardown
with no error.  A forwarder is registered exactly when a promise-mode
consume ran or the web lock is installed. -/
def emitEnd (s : BodyReadable) : BodyReadable :=
  if s.promise.isSome || s.kBody.isWeb then
    baseDestroy { s with base := { s.base with endEmitted := true } } none
  else { s with base := { s.base with endEmitted := true } }

/-- All operations of the object, for lifetime invariants. -/
inductive Op
  | push (val : Option Chunk)
  | consume (ty : Option ConsumeType)
  | destroy (err : Option JsError)
  | read
  | resume
  | pipe
  | onEv (ev : EventName)
  | emitEnd
  deriving DecidableEq, Repr

def step (p : Prims) (s : BodyReadable) : Op → BodyReadable × Outcome
  | .push v => ((push p s v).1, .pushed (push p s v).2)
  | .consume ty => ((consume p s ty).1, .consumed (consume p s ty).2)
  | .destroy e => (destroy s e, .unit)
  | .read => readOp p s
  | .resume => legacyGateOp p s
  | .pipe => legacyGateOp p s
  | .onEv ev => onOp p s ev
  | .emitEnd => (emitEnd s, .unit)

/-- Whether the accumulator reference of a promise-mode lock is still
present (this.body has not been cleared by an end sentinel). -/
def accBodyPresent : AccKind → Bool
  | .text b => b.isSome
  | .json b => b.isSome
  | .blob b => b.isSome
  | .arrayBuffer b => b.isSome

def isErrB : Except String JVal → Bool
  | .ok _ => false
  | .error _ => true

/-- The one failure the try block of the promise-mode push can hit while
the accumulator is still present: the structured-data parser throwing on
the end sentinel in json mode. -/
def accFailB (p : Prims) (l : AccLock) (v : Option Chunk) : Bool :=
  match v, l.kind with
  | none, .json (some t) => isErrB (p.parseJson t)
  | _, _ => false

/-- A concrete primitive record for evaluations: bytes decode through
Char.ofNat, and the parser rejects every string. -/
def prims0 : Prims :=
  { decode := fun c => String.mk (c.map Char.ofNat)
    parseJson := fun _ => .error "Unexpected token" }

/-- A freshly constructed BodyReadable on a current Node (readableDidRead
present and false): constructor lines 27 to 31. -/
def fresh : BodyReadable :=
  { base := { buffer := [], ended := false, endEmitted := false,
              readableDidRead := some false, destroyed := false,
              errored := none }
    kBody := .undef
    kDestroyed := false
    promise := none
    pendingBaseEndTask := false }

def chAB : Chunk := [97, 98]
def chCD : Chunk := [99, 100]
def chNotJson : Chunk := [110, 111, 116]

/-- State after text() on a fresh stream. -/
def c1s0 : BodyReadable := (consume prims0 fresh (some .text)).1

/-- State after text() on a fresh stream, then pushing ab, cd and the end
sentinel. -/
def c1s : BodyReadable :=
  (push prims0
    ((push prims0 ((push prims0 c1s0 (some chAB)).1) (some chCD)).1)
    none).1

/-- State after json() on a fresh stream. -/
def c2s0 : BodyReadable := (consume prims0 fresh (some .json)).1

/-- State after json() on a fresh stream, then pushing one non-json chunk
and the end sentinel. -/
def c2s : BodyReadable :=
  (push prims0 ((push prims0 c2s0 (some chNotJson)).1) none).1

/-- State after body (web-stream consumption) on a fresh stream. -/
def c3base : BodyReadable := (consume prims0 fresh (some .webStream)).1

/-- c3base after one chunk was delivered through the web lock. -/
def c3used : BodyReadable := (push prims0 c3base (some chAB)).1

/-- State after the legacy no-mode gate on a fresh stream. -/
def c4gate : BodyReadable := (consume prims0 fresh none).1

/-- A destroyed stream holding a text lock. -/
def c8s : BodyReadable :=
  { fresh with base := { fresh.base with destroyed := true },
               kBody := .acc ⟨false, .text (some "")⟩ }

/-- A stream whose read state already indicates delivered data. -/
def c9s : BodyReadable :=
  { fresh with base := { fresh.base with readableDidRead := some true } }

/-- A stream with two backlogged chunks, already ended, with the web lock
just installed. -/
def c7s : BodyReadable :=
  { fresh with base := { fresh.base with buffer := [chAB, chCD], ended := true },
               kBody := .web ⟨false, freshController⟩ }

def lock0 : WebLock := ⟨false, freshController⟩

def l10 : AccLock := ⟨false, .text (some "ab")⟩

/-- Intended-model state: text consumption then ab, cd, end. -/
def c1f : BodyReadable :=
  (push prims0
    ((push prims0
      ((push prims0 ((consumeIntended prims0 fresh .text).1) (some chAB)).1)
      (some chCD)).1)
    none).1

/-- Intended-model state: json consumption then one non-json chunk and
the end sentinel. -/
def c2f : BodyReadable :=
  (push prims0
    ((push prims0 ((consumeIntended prims0 fresh .json).1) (some chNotJson)).1)
    none).1

/-! ## Basic preservation lemmas -/

lemma baseDestroy_kBody (s : BodyReadable) (e : Option JsError) :
    (baseDestroy s e).kBody = s.kBody := by
  unfold baseDestroy; split <;> rfl

lemma baseDestroy_buffer (s : BodyReadable) (e : Option JsError) :
    (baseDestroy s e).base.buffer = s.base.buffer := by
  unfold baseDestroy; split <;> rfl

lemma baseDestroy_ended (s : BodyReadable) (e : Option JsError) :
    (baseDestroy s e).base.ended = s.base.ended := by
  unfold baseDestroy; split <;> rfl

lemma destroy_kBody (s : BodyReadable) (e : Option JsError) :
    (destroy s e).kBody = s.kBody := by
  unfold destroy; split
  · rfl
  · rw [baseDestroy_kBody]

lemma destroy_buffer (s : BodyReadable) (e : Option JsError) :
    (destroy s e).base.buffer = s.base.buffer := by
  unfold destroy; split
  · rfl
  · rw [baseDestroy_buffer]

lemma destroy_ended (s : BodyReadable) (e : Option JsError) :
    (destroy s e).base.ended = s.base.ended := by
  unfold destroy; split
  · rfl
  · rw [baseDestroy_ended]

lemma basePush_kBody (s : BodyReadable) (v : Option Chunk) :
    (basePush s v).1.kBody = s.kBody := by
  unfold basePush; split
  · rfl
  · cases v <;> rfl

lemma basePush_buffer_none (s : BodyReadable) :
    (basePush s none).1.base.buffer = s.base.buffer := by
  unfold basePush; split <;> rfl

lemma baseRead_kBody (s : BodyReadable) :
    (baseRead s).1.kBody = s.kBody := by
  unfold baseRead; split <;> rfl

lemma resolveProm_base (s : BodyReadable) (v : PromiseValue) :
    (resolveProm s v).base = s.base := by
  unfold resolveProm; split <;> rfl

lemma resolveProm_kBody (s : BodyReadable) (v : PromiseValue) :
    (resolveProm s v).kBody = s.kBody := by
  unfold resolveProm; split <;> rfl

lemma finishEnd_kBody (s : BodyReadable) (lk : AccLock) :
    (finishEnd s lk).1.kBody = .acc lk := by
  show (basePush (setAcc s lk) none).1.kBody = _
  rw [basePush_kBody]; rfl

lemma finishEnd_buffer (s : BodyReadable) (lk : AccLock) :
    (finishEnd s lk).1.base.buffer = s.base.buffer := by
  show (basePush (setAcc s lk) none).1.base.buffer = _
  rw [basePush_buffer_none]; rfl

/-! ## Lock pushes: mode and base-state preservation -/

lemma webPush_lockType (s : BodyReadable) (l : WebLock) (v : Option Chunk)
    (h : s.kBody.lockType = some .webStream) :
    (webPush s l v).1.kBody.lockType = some .webStream := by
  unfold webPush; split
  · exact h
  · cases v <;> rfl

lemma accTry_lockType (p : Prims) (s : BodyReadable) (k : AccKind)
    (v : Option Chunk) :
    (accTry p s k v).1.kBody.lockType = some k.ty := by
  cases k with
  | text b =>
    cases v with
    | some c => rfl
    | none =>
      show (finishEnd _ _).1.kBody.lockType = _
      rw [finishEnd_kBody]; rfl
  | json b =>
    cases v with
    | some c => rfl
    | none =>
      show (match p.parseJson (jsBodyString b) with
            | .ok v => finishEnd (resolveProm s (.jsonV v)) ⟨true, .json none⟩
            | .error m =>
              (destroy (setAcc s ⟨true, .json b⟩)
                (some (.parseError m)), false)).1.kBody.lockType = _
      cases p.parseJson (jsBodyString b) with
      | ok jv =>
        show (finishEnd _ _).1.kBody.lockType = _
        rw [finishEnd_kBody]; rfl
      | error m =>
        show (destroy (setAcc s _) _).kBody.lockType = _
        rw [destroy_kBody]; rfl
  | blob ob =>
    cases ob <;> cases v <;>
      first
        | rfl
        | (show (finishEnd _ _).1.kBody.lockType = _
           rw [finishEnd_kBody]; rfl)
        | (show (destroy (setAcc s _) _).kBody.lockType = _
           rw [destroy_kBody]; rfl)
  | arrayBuffer ob =>
    cases ob <;> cases v <;>
      first
        | rfl
        | (show (finishEnd _ _).1.kBody.lockType = _
           rw [finishEnd_kBody]; rfl)
        | (show (destroy (setAcc s _) _).kBody.lockType = _
           rw [destroy_kBody]; rfl)

lemma accPush_lockType (p : Prims) (s : BodyReadable) (l : AccLock)
    (v : Option Chunk) (h : s.kBody.lockType = some l.kind.ty) :
    (accPush p s l v).1.kBody.lockType = some l.kind.ty := by
  unfold accPush; split
  · exact h
  · exact accTry_lockType p s l.kind v

lemma webPush_base (s : BodyReadable) (l : WebLock) (v : Option Chunk) :
    (webPush s l v).1.base.buffer = s.base.buffer ∧
    (webPush s l v).1.base.ended = s.base.ended := by
  unfold webPush; split
  · exact ⟨rfl, rfl⟩
  · cases v <;> exact ⟨rfl, rfl⟩

lemma accTry_some_base (p : Prims) (s : BodyReadable) (k : AccKind)
    (c : Chunk) :
    (accTry p s k (some c)).1.base.buffer = s.base.buffer ∧
    (accTry p s k (some c)).1.base.ended = s.base.ended := by
  cases k with
  | text b => exact ⟨rfl, rfl⟩
  | json b => exact ⟨rfl, rfl⟩
  | blob ob =>
    cases ob with
    | some cs => exact ⟨rfl, rfl⟩
    | none => exact ⟨destroy_buffer _ _, destroy_ended _ _⟩
  | arrayBuffer ob =>
    cases ob with
    | some cs => exact ⟨rfl, rfl⟩
    | none => exact ⟨destroy_buffer _ _, destroy_ended _ _⟩

lemma accPush_some_base (p : Prims) (s : BodyReadable) (l : AccLock)
    (c : Chunk) :
    (accPush p s l (some c)).1.base.buffer = s.base.buffer ∧
    (accPush p s l (some c)).1.base.ended = s.base.ended := by
  unfold accPush; split
  · exact ⟨rfl, rfl⟩
  · exact accTry_some_base p s l.kind c

lemma accTry_none_buffer (p : Prims) (s : BodyReadable) (k : AccKind) :
    (accTry p s k none).1.base.buffer = s.base.buffer := by
  cases k with
  | text b =>
    show (finishEnd (resolveProm s _) _).1.base.buffer = _
    rw [finishEnd_buffer, resolveProm_base]
  | json b =>
    show (match p.parseJson (jsBodyString b) with
          | .ok v => finishEnd (resolveProm s (.jsonV v)) ⟨true, .json none⟩
          | .error m =>
            (destroy (setAcc s ⟨true, .json b⟩)
              (some (.parseError m)), false)).1.base.buffer = _
    cases p.parseJson (jsBodyString b) with
    | ok jv =>
      show (finishEnd (resolveProm s _) _).1.base.buffer = _
      rw [finishEnd_buffer, resolveProm_base]
    | error m => exact destroy_buffer _ _
  | blob ob =>
    cases ob with
    | some cs =>
      show (finishEnd (resolveProm s _) _).1.base.buffer = _
      rw [finishEnd_buffer, resolveProm_base]
    | none => exact destroy_buffer _ _
  | arrayBuffer ob =>
    cases ob with
    | some cs =>
      show (finishEnd (resolveProm s _) _).1.base.buffer = _
      rw [finishEnd_buffer, resolveProm_base]
    | none => exact destroy_buffer _ _

lemma accPush_none_buffer (p : Prims) (s : BodyReadable) (l : AccLock) :
    (accPush p s l none).1.base.buffer = s.base.buffer := by
  unfold accPush; split
  · rfl
  · exact accTry_none_buffer p s l.kind

lemma truthy_of_lockType (k : KBody) (t : ConsumeType)
    (h : k.lockType = some t) : k.truthy = true := by
  cases k <;> simp_all [KBody.lockType, KBody.truthy]

lemma lockType_of_truthy (k : KBody) (h : k.truthy = true) :
    ∃ t, k.lockType = some t := by
  cases k <;> simp_all [KBody.lockType, KBody.truthy]

lemma lockPush_lockType (p : Prims) (s : BodyReadable) (v : Option Chunk)
    (t : ConsumeType) (h : s.kBody.lockType = some t) :
    (lockPush p s v).1.kBody.lockType = some t := by
  unfold lockPush
  cases hk : s.kBody with
  | undef => rw [hk] at h; simp [KBody.lockType] at h
  | nullGate => rw [hk] at h; simp [KBody.lockType] at h
  | web l =>
    rw [hk] at h
    simp only [KBody.lockType] at h
    injection h with h2
    subst h2
    exact webPush_lockType s l v (by rw [hk]; rfl)
  | acc l =>
    rw [hk] at h
    simp only [KBody.lockType] at h
    injection h with h2
    subst h2
    exact accPush_lockType p s l v (by rw [hk]; rfl)

lemma lockPush_some_base (p : Prims) (s : BodyReadable) (c : Chunk) :
    (lockPush p s (some c)).1.base.buffer = s.base.buffer ∧
    (lockPush p s (some c)).1.base.ended = s.base.ended := by
  unfold lockPush
  cases s.kBody with
  | undef => exact ⟨rfl, rfl⟩
  | nullGate => exact ⟨rfl, rfl⟩
  | web l => exact webPush_base s l (some c)
  | acc l => exact accPush_some_base p s l c

lemma lockPush_none_buffer (p : Prims) (s : BodyReadable) :
    (lockPush p s none).1.base.buffer = s.base.buffer := by
  unfold lockPush
  cases s.kBody with
  | undef => rfl
  | nullGate => rfl
  | web l => exact (webPush_base s l none).1
  | acc l => exact accPush_none_buffer p s l
lemma lockPush_some_truthy (p : Prims) (s : BodyReadable) (c : Chunk)
    (h : s.kBody.truthy = true) :
    (lockPush p s (some c)).1.kBody.truthy = true := by
  obtain ⟨t, ht⟩ := lockType_of_truthy s.kBody h
  exact truthy_of_lockType _ t (lockPush_lockType p s (some c) t ht)

/-! ## The drain performed by start -/

lemma drainGo_spec (p : Prims) :
    ∀ (fuel : Nat) (s : BodyReadable) (tr : List (Option Chunk)),
      s.base.buffer.length = fuel → s.kBody.truthy = true →
      (drainGo p fuel s tr).2 = tr ++ s.base.buffer.map some ∧
      (drainGo p fuel s tr).1.base.buffer = [] ∧
      (drainGo p fuel s tr).1.kBody.truthy = true ∧
      (drainGo p fuel s tr).1.base.ended = s.base.ended := by
  intro fuel
  induction fuel with
  | zero =>
    intro s tr hlen htr
    have hb : s.base.buffer = [] := List.length_eq_zero.mp hlen
    simp [drainGo, hb, htr]
  | succ n ih =>
    intro s tr hlen htr
    cases hb : s.base.buffer with
    | nil => rw [hb] at hlen; simp at hlen
    | cons c rest =>
      have hstep : drainGo p (n + 1) s tr =
          drainGo p n
            ((lockPush p { s with base := { s.base with buffer := rest } }
              (some c)).1) (tr ++ [some c]) := by
        show (match s.base.buffer with
              | [] => (s, tr)
              | c :: rest =>
                drainGo p n
                  ((lockPush p
                    { s with base := { s.base with buffer := rest } }
                    (some c)).1) (tr ++ [some c])) =
          _
        rw [hb]
      have hlen2 : rest.length = n := by
        rw [hb] at hlen
        simpa using hlen
      have hbase := lockPush_some_base p
        { s with base := { s.base with buffer := rest } } c
      have htr2 := lockPush_some_truthy p
        { s with base := { s.base with buffer := rest } } c htr
      have hres := ih
        ((lockPush p { s with base := { s.base with buffer := rest } }
          (some c)).1) (tr ++ [some c])
        (by rw [hbase.1]; exact hlen2) htr2
      refine ⟨?_, ?_, ?_, ?_⟩
      · rw [hstep, hres.1, hbase.1]
        simp [hb]
      · rw [hstep]; exact hres.2.1
      · rw [hstep]; exact hres.2.2.1
      · rw [hstep, hres.2.2.2, hbase.2]

lemma start_spec (p : Prims) (s : BodyReadable)
    (h : s.kBody.truthy = true) :
    (start p s).2 =
      s.base.buffer.map some ++ (if s.base.ended then [none] else []) ∧
    (start p s).1.base.buffer = [] := by
  obtain ⟨h1, h2, h3, h4⟩ := drainGo_spec p s.base.buffer.length s [] rfl h
  unfold start
  rw [h4]
  cases he : s.base.ended with
  | false =>
    rw [if_neg (by simp)]
    exact ⟨by rw [h1]; simp, h2⟩
  | true =>
    rw [if_pos rfl]
    constructor
    · rw [h1]; simp
    · rw [lockPush_none_buffer]; exact h2

/-! ## consume on used or locked streams -/

lemma bodyUsed_of_truthy (s : BodyReadable) (h : s.kBody.truthy = true) :
    bodyUsed s = s.kBody.lockUsed := by
  unfold bodyUsed
  cases hk : s.kBody with
  | undef => rw [hk] at h; simp [KBody.truthy] at h
  | nullGate => rw [hk] at h; simp [KBody.truthy] at h
  | web l => rfl
  | acc l => rfl

lemma consume_disturbed_lemma (p : Prims) (s : BodyReadable)
    (ty : Option ConsumeType) (h : bodyUsed s = true) :
    consume p s ty = (s, .thrown (.typeError "disturbed")) := by
  unfold consume
  rw [h]
  rfl

lemma consume_locked_lemma (p : Prims) (s : BodyReadable)
    (ty : Option ConsumeType) (h : s.kBody.truthy = true) :
    consume p s ty =
      (s, .thrown (.typeError
        (if s.kBody.lockUsed then "disturbed" else "locked"))) := by
  unfold consume
  rw [bodyUsed_of_truthy s h]
  cases hu : s.kBody.lockUsed with
  | true => rfl
  | false => simp [hu, h]
/-! ## The installed lock is permanent across every operation -/

lemma step_lockType (p : Prims) (s : BodyReadable) (op : Op)
    (t : ConsumeType) (h : s.kBody.lockType = some t) :
    (step p s op).1.kBody.lockType = some t := by
  have htr := truthy_of_lockType _ _ h
  cases op with
  | push v =>
    show (push p s v).1.kBody.lockType = some t
    unfold push
    cases hk : s.kBody with
    | undef => rw [hk] at htr; simp [KBody.truthy] at htr
    | nullGate => rw [hk] at htr; simp [KBody.truthy] at htr
    | web l =>
      rw [hk] at h
      simp only [KBody.lockType] at h
      injection h with h2
      subst h2
      exact webPush_lockType s l v (by rw [hk]; rfl)
    | acc l =>
      rw [hk] at h
      simp only [KBody.lockType] at h
      injection h with h2
      subst h2
      exact accPush_lockType p s l v (by rw [hk]; rfl)
  | consume ty =>
    show (consume p s ty).1.kBody.lockType = some t
    rw [consume_locked_lemma p s ty htr]
    exact h
  | destroy e =>
    show (destroy s e).kBody.lockType = some t
    rw [destroy_kBody]
    exact h
  | read =>
    show (readOp p s).1.kBody.lockType = some t
    unfold readOp
    cases hk : s.kBody with
    | undef => rw [hk] at htr; simp [KBody.truthy] at htr
    | nullGate => rw [hk] at htr; simp [KBody.truthy] at htr
    | web l =>
      show (baseRead s).1.kBody.lockType = some t
      rw [baseRead_kBody]
      exact h
    | acc l =>
      show (baseRead s).1.kBody.lockType = some t
      rw [baseRead_kBody]
      exact h
  | resume =>
    show (legacyGateOp p s).1.kBody.lockType = some t
    unfold legacyGateOp
    cases hk : s.kBody with
    | undef => rw [hk] at htr; simp [KBody.truthy] at htr
    | nullGate => rw [hk] at htr; simp [KBody.truthy] at htr
    | web l => exact h
    | acc l => exact h
  | pipe =>
    show (legacyGateOp p s).1.kBody.lockType = some t
    unfold legacyGateOp
    cases hk : s.kBody with
    | undef => rw [hk] at htr; simp [KBody.truthy] at htr
    | nullGate => rw [hk] at htr; simp [KBody.truthy] at htr
    | web l => exact h
    | acc l => exact h
  | onEv ev =>
    show (onOp p s ev).1.kBody.lockType = some t
    unfold onOp
    cases hk : s.kBody with
    | undef => rw [hk] at htr; simp [KBody.truthy] at htr
    | nullGate => rw [hk] at htr; simp [KBody.truthy] at htr
    | web l => cases ev <;> exact h
    | acc l => cases ev <;> exact h
  | emitEnd =>
    show (emitEnd s).kBody.lockType = some t
    unfold emitEnd
    split
    · rw [baseDestroy_kBody]; exact h
    · exact h

/-- consume after the no-mode gate never throws the locked error: a used
read state yields disturbed, and otherwise the requested mode proceeds
(the null marker is falsy on line 137). -/
lemma consume_on_gate_not_locked (p : Prims) (s : BodyReadable)
    (ty : ConsumeType) (h : s.kBody = .nullGate) :
    (consume p s (some ty)).2 ≠ .thrown (.typeError "locked") := by
  unfold consume
  cases hb : bodyUsed s with
  | true =>
    rw [if_pos rfl]
    simp
  | false =>
    rw [if_neg (by simp)]
    rw [if_neg (by rw [h]; simp [KBody.truthy])]
    cases ty <;> simp

/-! ## destroy with no supplied error -/

lemma destroy_none_spec (s : BodyReadable) (h1 : s.kDestroyed = false)
    (h2 : s.base.destroyed = false) :
    (destroy s none).base.errored =
      (if s.kBody.truthy && !s.base.endEmitted then some .abortError
       else none) ∧
    (s.promise = some .pending → s.kBody.truthy = true →
      s.base.endEmitted = false →
      (destroy s none).promise = some (.rejected .abortError)) := by
  constructor
  · unfold destroy baseDestroy
    rw [if_neg (by simp [h1])]
    rw [if_neg (by simp [h2])]
    cases hc : s.kBody.truthy <;> cases he : s.base.endEmitted <;>
      simp [hc, he]
  · intro hp hc he
    unfold destroy baseDestroy
    rw [if_neg (by simp [h1])]
    rw [if_neg (by simp [h2])]
    rw [if_pos (by simp [hc, he])]
    rw [hp]
    rfl

/-! ## Result value of the promise-mode push -/

lemma accTry_result (p : Prims) (s : BodyReadable) (k : AccKind)
    (v : Option Chunk) (u : Bool) (h2 : accBodyPresent k = true) :
    (accTry p s k v).2 = !accFailB p ⟨u, k⟩ v := by
  cases k with
  | text b =>
    cases v with
    | some c => rfl
    | none => rfl
  | json b =>
    cases b with
    | none => simp [accBodyPresent] at h2
    | some t =>
      cases v with
      | some c => rfl
      | none =>
        show (match p.parseJson (jsBodyString (some t)) with
              | .ok jv =>
                finishEnd (resolveProm s (.jsonV jv)) ⟨true, .json none⟩
              | .error m =>
                (destroy (setAcc s ⟨true, .json (some t)⟩)
                  (some (.parseError m)), false)).2 = _
        simp only [jsBodyString, accFailB]
        cases p.parseJson t with
        | ok jv => rfl
        | error m => rfl
  | blob ob =>
    cases ob with
    | none => simp [accBodyPresent] at h2
    | some cs => cases v <;> rfl
  | arrayBuffer ob =>
    cases ob with
    | none => simp [accBodyPresent] at h2
    | some cs => cases v <;> rfl
/-! ## Supporting facts about the intended promise-mode model -/

lemma consumeIntended_text_resolves :
    c1f.promise = some (.resolved (.strV "abcd")) := by decide

lemma consumeIntended_json_rejects :
    c2f.base.destroyed = true ∧
    c2f.promise = some (.rejected (.parseError "Unexpected token")) := by
  decide

/-! ## Claim theorems -/

/-- Claim C1: the claim says the promise returned by text() resolves with
the concatenation of the pushed chunks once the end sentinel arrives.
On the code as written this fails: line 237 reads this.type inside the
promise executor, where this is undefined (consume is a plain
strict-mode call and the executor is an arrow function), so the executor
throws a TypeError before self[kBody] is assigned.  Evaluating the code
at the failing input: after text() on a fresh stream the returned
promise is already rejected with that TypeError, no lock is installed,
and after pushing ab, cd and the end sentinel the promise is still that
rejection, not a resolution with abcd. -/
theorem c1_text_mode_rejected_not_resolved :
    (consume prims0 fresh (some .text)).2 = .promiseHandle ∧
    c1s0.kBody = .undef ∧
    c1s.promise = some (.rejected
      (.typeError "Cannot read properties of undefined")) ∧
    c1s.promise ≠ some (.resolved (.strV "abcd")) := by decide

/-- Claim C2: the claim says json() resolves the parsed value on the end
sentinel, and that a parse failure destroys the stream and rejects the
promise.  On the code as written the same line 237 slip fires first: the
promise returned by json() is already rejected with the executor
TypeError, no lock is installed, and after pushing a non-json chunk and
the end sentinel the stream is not destroyed and the rejection is the
TypeError, not a parse failure. -/
theorem c2_json_mode_rejected_not_destroyed :
    (consume prims0 fresh (some .json)).2 = .promiseHandle ∧
    c2s.promise = some (.rejected
      (.typeError "Cannot read properties of undefined")) ∧
    c2s.base.destroyed = false ∧
    c2s.kBody = .undef := by decide

/-- Claim C3 counterexample: after the web-stream lock has observed a
chunk, a second consumption attempt throws the disturbed usage error,
not the locked one the claim promises for every second attempt. -/
theorem c3_second_attempt_disturbed_not_locked :
    (consume prims0 c3used (some .text)).2 =
      .thrown (.typeError "disturbed") ∧
    (consume prims0 c3used (some .text)).2 ≠
      .thrown (.typeError "locked") := by decide

/-- Claim C3 (amended): once a lock object is installed, every further
consumption attempt, in any mode, fails synchronously and leaves the
state unchanged; the error is the disturbed TypeError when the lock has
already observed a chunk or the end sentinel, and the locked TypeError
otherwise. -/
theorem c3_second_attempt_error_kind (p : Prims) (s : BodyReadable)
    (ty : Option ConsumeType) (h : s.kBody.truthy = true) :
    consume p s ty =
      (s, .thrown (.typeError
        (if s.kBody.lockUsed then "disturbed" else "locked"))) :=
  consume_locked_lemma p s ty h

/-- Claim C3 witness at a concrete state. -/
theorem c3_second_attempt_error_kind_witness :
    consume prims0 c3used (some .blob) =
      (c3used, .thrown (.typeError "disturbed")) := by
  rw [c3_second_attempt_error_kind prims0 c3used (some .blob) (by decide)]
  decide

/-- Claim C4 counterexample: after a legacy-gate (no-mode) consumption
the object holds the null marker, and a subsequent web-stream
consumption does not fail with the locked error; it installs a real
lock, replacing the marker. -/
theorem c4_gate_superseded :
    c4gate.kBody = .nullGate ∧
    (consume prims0 c4gate (some .webStream)).2 = .webStreamHandle ∧
    (consume prims0 c4gate (some .webStream)).1.kBody.lockType =
      some .webStream := by decide

/-- Claim C4 (amended): once a mode-specific lock object is installed its
mode is never replaced or cleared by any operation of the object; the
legacy-gate null marker, however, does not make later mode-specific
consumption fail with the locked error: such an attempt either proceeds
or fails with the disturbed error. -/
theorem c4_lock_permanence (p : Prims) (s : BodyReadable) (op : Op)
    (t : ConsumeType) (ty : ConsumeType) :
    (s.kBody.lockType = some t →
      (step p s op).1.kBody.lockType = some t) ∧
    (s.kBody = .nullGate →
      (consume p s (some ty)).2 ≠ .thrown (.typeError "locked")) :=
  ⟨fun h => step_lockType p s op t h,
   fun h => consume_on_gate_not_locked p s ty h⟩

/-- Claim C4 witness at concrete states. -/
theorem c4_lock_permanence_witness :
    (step prims0 c3base (.destroy none)).1.kBody.lockType =
      some .webStream ∧
    (consume prims0 c4gate (some .text)).2 ≠
      .thrown (.typeError "locked") :=
  ⟨(c4_lock_permanence prims0 c3base (.destroy none) .webStream .text).1
     (by decide),
   (c4_lock_permanence prims0 c4gate (.destroy none) .webStream .text).2
     (by decide)⟩

/-- Claim C5 counterexample: after the legacy no-mode gate a consumption
lock has been installed in the sense of the claims (the gate path of
consume), the stream has not reached its natural end, yet destroy with
no error synthesizes nothing: the null marker is falsy on line 38, so
the base teardown receives no error instead of an AbortError. -/
theorem c5_gate_destroy_no_abort :
    c4gate.kBody = .nullGate ∧
    c4gate.base.endEmitted = false ∧
    c4gate.kDestroyed = false ∧
    (destroy c4gate none).base.errored = none ∧
    (destroy c4gate none).base.errored ≠ some .abortError := by decide

/-- Claim C5 (amended): destroy with no error synthesizes an AbortError
exactly when a truthy lock object exists (the legacy no-mode marker does
not count) and the end event has not been emitted; that AbortError is
what the base teardown receives, and a pending consumption promise
observes it as its rejection.  After natural end, or with no lock
object, no error is propagated. -/
theorem c5_destroy_abort_condition (s : BodyReadable)
    (h1 : s.kDestroyed = false) (h2 : s.base.destroyed = false) :
    (destroy s none).base.errored =
      (if s.kBody.truthy && !s.base.endEmitted then some .abortError
       else none) ∧
    (s.promise = some .pending → s.kBody.truthy = true →
      s.base.endEmitted = false →
      (destroy s none).promise = some (.rejected .abortError)) :=
  destroy_none_spec s h1 h2

/-- Claim C5 witness at a concrete state. -/
theorem c5_destroy_abort_condition_witness :
    (destroy c3base none).base.errored = some JsError.abortError := by
  rw [(c5_destroy_abort_condition c3base (by decide) (by decide)).1]
  decide

/-- Claim C6: in pull-stream mode, pushing a real chunk while the stream
is not destroyed (and the attached controller is not yet closed)
enqueues a copy of the chunk bytes into the controller queue and returns
true exactly when the controller still reports desired capacity greater
than zero after the enqueue. -/
theorem c6_webpush_enqueue_capacity (s : BodyReadable) (l : WebLock)
    (ch : Chunk) (h1 : s.base.destroyed = false)
    (h2 : l.controller.closed = false)
    (h3 : l.controller.errored = false) :
    webPush s l (some ch) =
      ({ s with kBody := .web ⟨true, l.controller.enq ch⟩ },
       decide ((l.controller.enq ch).desiredSize > 0)) ∧
    ((webPush s l (some ch)).2 = true ↔
      (l.controller.enq ch).desiredSize > 0) := by
  have he : webPush s l (some ch) =
      ({ s with kBody := .web ⟨true, l.controller.enq ch⟩ },
       decide ((l.controller.enq ch).desiredSize > 0)) := by
    unfold webPush
    rw [if_neg (by simp [h1])]
  refine ⟨he, ?_⟩
  rw [he]
  simp

/-- Claim C6 witness at a concrete state. -/
theorem c6_webpush_enqueue_capacity_witness :
    (webPush fresh lock0 (some chAB)).2 = true ∧
    (webPush fresh lock0 (some chAB)).1.kBody =
      .web ⟨true, ⟨[chAB], false, false⟩⟩ := by
  have h := c6_webpush_enqueue_capacity fresh lock0 chAB
    (by decide) (by decide) (by decide)
  constructor
  · rw [h.1]; decide
  · rw [h.1]; decide

/-- Claim C7: when start runs with a lock installed, it synchronously
delivers every backlogged chunk to the lock push in backlog order,
follows with the end sentinel exactly when the stream already ended,
and leaves the backlog empty: no chunk is skipped or reordered between
installation and live pushing. -/
theorem c7_start_drains_backlog (p : Prims) (s : BodyReadable)
    (h : s.kBody.truthy = true) :
    (start p s).2 =
      s.base.buffer.map some ++ (if s.base.ended then [none] else []) ∧
    (start p s).1.base.buffer = [] :=
  start_spec p s h

/-- Claim C7 witness at a concrete state. -/
theorem c7_start_drains_backlog_witness :
    (start prims0 c7s).2 = [some chAB, some chCD, none] ∧
    (start prims0 c7s).1.base.buffer = [] := by
  have h := c7_start_drains_backlog prims0 c7s (by decide)
  refine ⟨?_, h.2⟩
  rw [h.1]
  decide

/-- Claim C8: once the stream is destroyed, a push in any consumption
mode is a no-op returning false and changing nothing: the destroyed
check is the first thing each push path performs. -/
theorem c8_push_noop_after_destroy (p : Prims) (s : BodyReadable)
    (v : Option Chunk) (h : s.base.destroyed = true) :
    push p s v = (s, false) := by
  unfold push
  cases s.kBody with
  | undef =>
    show basePush s v = (s, false)
    unfold basePush; rw [if_pos h]
  | nullGate =>
    show basePush s v = (s, false)
    unfold basePush; rw [if_pos h]
  | web l =>
    show webPush s l v = (s, false)
    unfold webPush; rw [if_pos h]
  | acc l =>
    show accPush p s l v = (s, false)
    unfold accPush; rw [if_pos h]

/-- Claim C8 witness at a concrete state. -/
theorem c8_push_noop_after_destroy_witness :
    push prims0 c8s (some chAB) = (c8s, false) :=
  c8_push_noop_after_destroy prims0 c8s (some chAB) (by decide)

/-- Claim C9: any consumption attempt, in any mode including the no-mode
gate, made while bodyUsed is true throws the disturbed TypeError and
installs nothing: the state is returned unchanged. -/
theorem c9_consume_disturbed (p : Prims) (s : BodyReadable)
    (ty : Option ConsumeType) (h : bodyUsed s = true) :
    consume p s ty = (s, .thrown (.typeError "disturbed")) :=
  consume_disturbed_lemma p s ty h

/-- Claim C9 witness at a concrete state. -/
theorem c9_consume_disturbed_witness :
    consume prims0 c9s (some .arrayBuffer) =
      (c9s, .thrown (.typeError "disturbed")) :=
  c9_consume_disturbed prims0 c9s (some .arrayBuffer) (by decide)

/-- Claim C10: a promise-mode push that is not short-circuited by the
destroyed check, taken while the accumulator reference is still present,
returns false exactly when the accumulation fails, and the only such
failure is the structured-data parser throwing on the end sentinel in
json mode; every other push, real chunk or end sentinel, returns true
regardless of how much data has accumulated. -/
theorem c10_accpush_true_unless_failure (p : Prims) (s : BodyReadable)
    (l : AccLock) (v : Option Chunk) (h1 : s.base.destroyed = false)
    (h2 : accBodyPresent l.kind = true) :
    (accPush p s l v).2 = !accFailB p l v := by
  unfold accPush
  rw [if_neg (by simp [h1])]
  obtain ⟨u, k⟩ := l
  exact accTry_result p s k v u h2

/-- Claim C10 witness at a concrete state. -/
theorem c10_accpush_true_unless_failure_witness :
    (accPush prims0 fresh l10 (some chCD)).2 = true := by
  rw [c10_accpush_true_unless_failure prims0 fresh l10 (some chCD)
    (by decide) (by decide)]
  decide

end Undici
